import Mathlib

/-!
Verification of the `errata` crate (published as `anerror`): a
termination-classification layer distinguishing expected user-facing
failures from unexpected defects.

The definitions below are a shallow embedding of `src/lib.rs`.  A raise
operation is modelled as producing the panic payload it would pass to
`std::panic::panic_any`; the fallible helpers `fail` / `fail_color` on
`Option` and `Result` are modelled as functions into `Except AnerrorPanic T`,
where `Except.error p` stands for "unwinds carrying payload `p`" and
`Except.ok v` stands for "returns `v` normally".  Rust `Display` rendering is
modelled by passing an explicit rendering function `disp : E → String` (and by
taking already-rendered `String` messages, since `format!("{msg}")` on a
`Display` value is exactly its display form).
-/

namespace Anerror

/-- Modelled from the spec: the Failure Signal wrapper type `AnerrorPanic`,
re-exported by `src/lib.rs` from the `anerror_error` crate (whose source is
not under `src/`).  Per the spec it is a tagged value carrying a single owned,
already-formatted text payload; the tag itself is the class marker that
distinguishes classified failures from every other unwind payload. -/
structure AnerrorPanic where
  payload : String
deriving DecidableEq, Repr

/-- The `error!` macro from `src/lib.rs`: panics with
`AnerrorPanic(format!(...))`, i.e. raises a Failure Signal carrying the
formatted message verbatim. -/
def error (msg : String) : AnerrorPanic :=
  ⟨msg⟩

/-- The `error_color!` macro from `src/lib.rs`: panics with
`AnerrorPanic(format!("\x1b[38;5;1m\x1b[1m{}\x1b[0m", format!(...)))`. -/
def error_color (msg : String) : AnerrorPanic :=
  ⟨"\x1b[38;5;1m\x1b[1m" ++ msg ++ "\x1b[0m"⟩

/-- `impl<T> FallibleExt<T> for Option<T>`, method `fail`:
`Some(t)` returns `t`; `None` panics with `AnerrorPanic(format!("{msg}"))`. -/
def Option.fail {T : Type} (o : Option T) (msg : String) :
    Except AnerrorPanic T :=
  match o with
  | some t => .ok t
  | none => .error ⟨msg⟩

/-- `impl<T> FallibleExt<T> for Option<T>`, method `fail_color`:
`Some(t)` returns `t`; `None` panics with
`AnerrorPanic(format!("\x1b[38;5;1m\x1b[1m{msg}\x1b[0m"))`. -/
def Option.fail_color {T : Type} (o : Option T) (msg : String) :
    Except AnerrorPanic T :=
  match o with
  | some t => .ok t
  | none => .error ⟨"\x1b[38;5;1m\x1b[1m" ++ msg ++ "\x1b[0m"⟩

/-- Rust's `Result<T, E>`, as matched on by the `FallibleExt` impl. -/
inductive Result (T E : Type) where
  | Ok : T → Result T E
  | Err : E → Result T E
deriving DecidableEq, Repr

/-- `impl<T, E: Display> FallibleExt<T> for Result<T, E>`, method `fail`:
`Ok(t)` returns `t`; `Err(e)` panics with
`AnerrorPanic(format!("{msg}: {e}"))`.  `disp` is `E`'s `Display` rendering. -/
def Result.fail {T E : Type} (r : Result T E) (disp : E → String)
    (msg : String) : Except AnerrorPanic T :=
  match r with
  | .Ok t => .ok t
  | .Err e => .error ⟨msg ++ ": " ++ disp e⟩

/-- `impl<T, E: Display> FallibleExt<T> for Result<T, E>`, method
`fail_color`: `Ok(t)` returns `t`; `Err(e)` panics with
`AnerrorPanic(format!("\x1b[38;5;1m\x1b[1m{msg}: {e}\x1b[0m"))`. -/
def Result.fail_color {T E : Type} (r : Result T E) (disp : E → String)
    (msg : String) : Except AnerrorPanic T :=
  match r with
  | .Ok t => .ok t
  | .Err e => .error ⟨"\x1b[38;5;1m\x1b[1m" ++ msg ++ ": " ++ disp e ++ "\x1b[0m"⟩

/-- An unwind payload as seen by the process boundary: either a classified
Failure Signal (an `AnerrorPanic`), or anything else — an unclassified
defect, carried together with the runtime's default diagnostic rendering
for it. -/
inductive UnwindPayload where
  | classified : AnerrorPanic → UnwindPayload
  | unclassified : String → UnwindPayload
deriving DecidableEq, Repr

/-- Observable outcome of the process boundary: the bytes written to the
diagnostic stream (stderr) and the process exit status. -/
structure BoundaryResult where
  stderr : String
  exitCode : Nat
deriving DecidableEq, Repr

/-- Modelled from the spec: the Boundary Interceptor installed by the
`#[anerror::catch]` attribute macro (the `anerror_macros` crate, whose source
is not under `src/`).  It runs the wrapped computation, modelled here by its
result: `Except.ok ()` when it completes normally, `Except.error p` when an
unwind carrying payload `p` escapes it.  Per the spec: no unwind gives exit
status 0 and no diagnostic output; a Failure Signal has its text written
verbatim followed by a newline, exit status 1; any other payload has the
runtime's default diagnostic rendering re-invoked unmodified, exit
status 101. -/
def interceptBoundary (run : Except UnwindPayload Unit) : BoundaryResult :=
  match run with
  | .ok _ => ⟨"", 0⟩
  | .error (.classified p) => ⟨p.payload ++ "\n", 1⟩
  | .error (.unclassified d) => ⟨d, 101⟩

/-- C1: `Result::fail` on `Ok(v)` returns `v` with no unwind; on `Err(e)` it
raises an `AnerrorPanic` whose text is the caller-supplied message, then
`": "`, then the cause's display form — and it is the only plain (unstyled)
operation that concatenates a cause: `error!` and `Option::fail` carry the
message alone, with no separator and no cause appended. -/
theorem C1_result_fail (T E : Type) (disp : E → String) (v : T) (e : E)
    (msg : String) :
    Result.fail (Result.Ok (E := E) v) disp msg = Except.ok v ∧
    Result.fail (Result.Err (T := T) e) disp msg
      = Except.error ⟨msg ++ ": " ++ disp e⟩ ∧
    error msg = ⟨msg⟩ ∧
    Option.fail (none : Option T) msg = Except.error ⟨msg⟩ :=
  ⟨rfl, rfl, rfl, rfl⟩

/-- C2: for every non-empty message `m`, a Failure Signal raised by
`error!(m)` that reaches the Boundary Interceptor causes exactly `m`
followed by a newline to be written to stderr, and the process exits with
status 1. -/
theorem C2_raise_intercepted (m : String) (h : m ≠ "") :
    interceptBoundary (Except.error (UnwindPayload.classified (error m)))
      = ⟨m ++ "\n", 1⟩ :=
  rfl

/-- Witness for C2 at the concrete message `"oops"`. -/
theorem C2_raise_intercepted_witness :
    interceptBoundary
        (Except.error (UnwindPayload.classified (error "oops")))
      = ⟨"oops" ++ "\n", 1⟩ :=
  C2_raise_intercepted "oops" (by decide)

/-- C3: the Boundary Interceptor yields exactly three process outcomes:
normal completion exits with status 0 and writes nothing; an unwind payload
that is not a Failure Signal has the runtime's default diagnostic rendering
re-emitted unmodified and exits with status 101; and 101 is distinct from
both 1 and 0. -/
theorem C3_three_outcomes :
    interceptBoundary (Except.ok ()) = ⟨"", 0⟩ ∧
    (∀ d : String,
      interceptBoundary (Except.error (UnwindPayload.unclassified d))
        = ⟨d, 101⟩) ∧
    (∀ run : Except UnwindPayload Unit,
      (interceptBoundary run).exitCode = 0 ∨
      (interceptBoundary run).exitCode = 1 ∨
      (interceptBoundary run).exitCode = 101) ∧
    (101 : Nat) ≠ 1 ∧ (101 : Nat) ≠ 0 := by
  refine ⟨rfl, fun d => rfl, fun run => ?_, by decide, by decide⟩
  cases run with
  | ok v => exact Or.inl rfl
  | error p =>
    cases p with
    | classified q => exact Or.inr (Or.inl rfl)
    | unclassified d => exact Or.inr (Or.inr rfl)

/-- C4: `Option::fail` applied to `None` raises exactly the same
`AnerrorPanic` payload as `error!(msg)` does; applied to `Some(v)` it
returns `v` with no unwind. -/
theorem C4_option_fail_is_raise (T : Type) (v : T) (msg : String) :
    Option.fail (none : Option T) msg = Except.error (error msg) ∧
    Option.fail (some v) msg = Except.ok v :=
  ⟨rfl, rfl⟩

/-- C5: the emphasized raise variants `error_color!` and
`Option::fail_color` construct a payload equal to the message wrapped with
the fixed ANSI prefix `"\x1b[38;5;1m\x1b[1m"` (foreground color index 1 plus
bold) and the fixed reset suffix `"\x1b[0m"`; the wrapping is present in the
payload at construction time, and the Boundary Interceptor adds nothing but
the trailing newline at render time. -/
theorem C5_emphasis_at_construction (T : Type) (msg : String) :
    error_color msg = ⟨"\x1b[38;5;1m\x1b[1m" ++ msg ++ "\x1b[0m"⟩ ∧
    Option.fail_color (none : Option T) msg
      = Except.error ⟨"\x1b[38;5;1m\x1b[1m" ++ msg ++ "\x1b[0m"⟩ ∧
    (interceptBoundary
        (Except.error (UnwindPayload.classified (error_color msg)))).stderr
      = "\x1b[38;5;1m\x1b[1m" ++ msg ++ "\x1b[0m" ++ "\n" :=
  ⟨rfl, rfl, rfl⟩

/-- C6: `Result::fail_color` on `Err(e)` produces exactly the emphasis
prefix, then the combined `"{msg}: {e}"` string that `Result::fail` would
produce on the same input, then the reset suffix — the emphasis wraps the
whole concatenation, not only the message part. -/
theorem C6_fail_color_wraps_whole (T E : Type) (disp : E → String) (e : E)
    (msg s : String)
    (h : Result.fail (Result.Err (T := T) e) disp msg = Except.error ⟨s⟩) :
    Result.fail_color (Result.Err (T := T) e) disp msg
      = Except.error ⟨"\x1b[38;5;1m\x1b[1m" ++ s ++ "\x1b[0m"⟩ := by
  simp only [Result.fail, Except.error.injEq, AnerrorPanic.mk.injEq] at h
  subst h
  simp only [Result.fail_color, Except.error.injEq, AnerrorPanic.mk.injEq,
    String.append_assoc]

/-- Witness for C6 at the concrete failing input from the spec's scenario:
cause `"disk full"`, message `"Could not write config"`. -/
theorem C6_fail_color_wraps_whole_witness :
    Result.fail_color (Result.Err (T := Nat) "disk full") id
        "Could not write config"
      = Except.error
          ⟨"\x1b[38;5;1m\x1b[1m" ++ "Could not write config: disk full"
            ++ "\x1b[0m"⟩ :=
  C6_fail_color_wraps_whole Nat String id "disk full"
    "Could not write config" "Could not write config: disk full" rfl

/-- C7: `Result::fail` with an empty message on `Err(e)` yields the payload
`": "` followed by the cause's display form — the empty prefix and the
separator are not suppressed. -/
theorem C7_empty_message (T E : Type) (disp : E → String) (e : E) :
    Result.fail (Result.Err (T := T) e) disp ""
      = Except.error ⟨": " ++ disp e⟩ := by
  simp only [Result.fail, Except.error.injEq, AnerrorPanic.mk.injEq]
  have h : ("" : String) ++ ": " = ": " := by decide
  rw [h]

/-- C8: a Failure Signal's text is final once constructed: for every payload
text `s`, the text the Boundary Interceptor writes at its single consumption
is exactly `s` plus the trailing newline — no operation between raise and
interception mutates or enriches the carried text. -/
theorem C8_payload_final (s : String) :
    (interceptBoundary
        (Except.error (UnwindPayload.classified ⟨s⟩))).stderr = s ++ "\n" :=
  rfl

/-- C9: the three emphasized raise operations (`error_color!`,
`Option::fail_color`, `Result::fail_color`) all use the byte-identical
wrapping: the prefix `"\x1b[38;5;1m\x1b[1m"` (8-bit foreground color 1,
then bold — color sequence first) and the suffix `"\x1b[0m"`. -/
theorem C9_identical_wrapping (T E : Type) (disp : E → String) (e : E)
    (msg : String) :
    error_color msg = ⟨"\x1b[38;5;1m\x1b[1m" ++ msg ++ "\x1b[0m"⟩ ∧
    Option.fail_color (none : Option T) msg
      = Except.error ⟨"\x1b[38;5;1m\x1b[1m" ++ msg ++ "\x1b[0m"⟩ ∧
    Result.fail_color (Result.Err (T := T) e) disp msg
      = Except.error
          ⟨"\x1b[38;5;1m\x1b[1m" ++ (msg ++ ": " ++ disp e) ++ "\x1b[0m"⟩ := by
  refine ⟨rfl, rfl, ?_⟩
  simp only [Result.fail_color, Except.error.injEq, AnerrorPanic.mk.injEq,
    String.append_assoc]

/-- C10: every raise operation of the module, on its failing case, produces
a payload of the single wrapper type `AnerrorPanic` containing a `String`
(exhibited below by the explicit payload string of each), and any payload of
that type is discriminated at the boundary as a classified failure, exiting
with status 1. -/
theorem C10_uniform_payload (T E : Type) (disp : E → String) (e : E)
    (msg : String) :
    (∃ s, error msg = AnerrorPanic.mk s) ∧
    (∃ s, error_color msg = AnerrorPanic.mk s) ∧
    (∃ s, Option.fail (none : Option T) msg
      = Except.error (AnerrorPanic.mk s)) ∧
    (∃ s, Option.fail_color (none : Option T) msg
      = Except.error (AnerrorPanic.mk s)) ∧
    (∃ s, Result.fail (Result.Err (T := T) e) disp msg
      = Except.error (AnerrorPanic.mk s)) ∧
    (∃ s, Result.fail_color (Result.Err (T := T) e) disp msg
      = Except.error (AnerrorPanic.mk s)) ∧
    (∀ s : String,
      (interceptBoundary
          (Except.error (UnwindPayload.classified (AnerrorPanic.mk s)))).exitCode
        = 1) :=
  ⟨⟨msg, rfl⟩, ⟨_, rfl⟩, ⟨msg, rfl⟩, ⟨_, rfl⟩, ⟨_, rfl⟩, ⟨_, rfl⟩,
    fun _ => rfl⟩

end Anerror
